import Mathlib

/-!
Verification of `src/exp_lut_1over128_gen.cpp`: a generator that writes the
IEEE-754 binary32 bit patterns of `float (exp (-k/128))`, `k = 0, …, 1024`,
as 8-digit lowercase hexadecimal lines to `exp_lut_1over128.hex`.

The embedding models machine floats by their bit patterns (natural numbers).
`std::exp` is an external library routine, so the numeric samples are
modelled from the spec as the correctly rounded binary64 exponential,
computed here by rigorous interval arithmetic (an alternating-series bracket
of `exp (-1/128)`, powered up with outward rounding, then rounded to
binary64 and narrowed to binary32, both to nearest, ties to even).
-/

set_option maxRecDepth 16000

/-! ## The numeric model: `float (exp (-k * (1/128)))` as a bit pattern -/

/-- Fixed-point scale of the interval model: a natural number `n` stands for
the value `n / 2 ^ scaleBits`. -/
def scaleBits : ℕ := 200

/-- Exact partial sums of the alternating Taylor series of `exp (-1/128)`:
`taylorPair N = (a, d)` with `a / d = ∑ n ≤ N, (-1/128) ^ n / n !`.
Step `n + 1` multiplies the common denominator by `128 * (n + 1)`. -/
def taylorPair : ℕ → ℤ × ℕ
  | 0 => (1, 1)
  | n+1 =>
    let p := taylorPair n
    (p.1 * (128 * ((n : ℤ) + 1)) + (-1) ^ (n+1), p.2 * (128 * (n+1)))

/-- Lower bound for `exp (-1/128)` at scale `2 ^ scaleBits`: the partial sum
ending in an odd (negative) term lies below the limit of the alternating
series, and floor division only rounds further down. -/
def expStepLo : ℕ := (taylorPair 21).1.toNat * 2 ^ scaleBits / (taylorPair 21).2

/-- Upper bound for `exp (-1/128)` at scale `2 ^ scaleBits`: the partial sum
ending in an even (positive) term lies above the limit, and ceiling division
only rounds further up. -/
def expStepHi : ℕ :=
  ((taylorPair 20).1.toNat * 2 ^ scaleBits + (taylorPair 20).2 - 1) / (taylorPair 20).2

/-- One bisection step of the bit-length computation: when `2 ^ w ≤ n`,
shift `w` bits away and add `w` to the count. -/
def blStep (w : ℕ) (p : ℕ × ℕ) : ℕ × ℕ :=
  if 2 ^ w ≤ p.2 then (p.1 + w, p.2 >>> w) else p

/-- Number of binary digits of `n` (0 for `n = 0`), by shift bisection over
widths 256, 128, …, 1; valid for `n < 2 ^ 512`. -/
def bitLen (n : ℕ) : ℕ :=
  (blStep 1 (blStep 2 (blStep 4 (blStep 8 (blStep 16 (blStep 32
    (blStep 64 (blStep 128 (blStep 256 (0, n)))))))))).1 + (if n = 0 then 0 else 1)

/-- Round `x / 2 ^ s` to the nearest integer; `none` on an exact tie, so a
caller can refuse to decide a rounding from a bracket endpoint that sits on
a rounding boundary. -/
def rnShift (x s : ℕ) : Option ℕ :=
  let q := x >>> s
  let r := x - (q <<< s)
  if 2 * r < 2 ^ s then some q
  else if 2 * r > 2 ^ s then some (q + 1)
  else none

/-- Round `x / 2 ^ s` to the nearest integer, ties to even. -/
def rneShift (x s : ℕ) : ℕ :=
  let q := x >>> s
  let r := x - (q <<< s)
  if 2 * r < 2 ^ s then q
  else if 2 * r > 2 ^ s then q + 1
  else if q % 2 = 0 then q else q + 1

/-- From a bracket `[L, U] / 2 ^ scaleBits` around a positive real value `v`,
the IEEE-754 binary32 bit pattern of `fl32 (fl64 v)` — `v` rounded to
nearest-even binary64 and the result narrowed, again to nearest-even, to
binary32 — or `none` when the bracket is too wide (or sits on a boundary)
so the binary64 rounding is not determined.  Rounding to nearest is
monotone, so when both endpoints round to the same binary64 significand,
every value in between does as well. -/
def f32WordOfBounds (L U : ℕ) : Option ℕ :=
  let e := bitLen L
  if e = 0 then none
  else if bitLen U ≠ e then none
  else if e < 54 then none
  else
    match rnShift L (e - 53), rnShift U (e - 53) with
    | some mL, some mU =>
      if mL ≠ mU then none
      else
        -- binary64 significand, renormalized into `[2 ^ 52, 2 ^ 53)`
        let eAdj := if mL = 2 ^ 53 then 1 else 0
        let m := if mL = 2 ^ 53 then 2 ^ 52 else mL
        -- narrow the 53-bit significand to 24 bits, ties to even
        let q0 := rneShift m 29
        let eAdj2 := if q0 = 2 ^ 24 then 1 else 0
        let q := if q0 = 2 ^ 24 then 2 ^ 23 else q0
        -- unbiased binary32 exponent; the encoding below is for normal values
        let E : ℤ := (e : ℤ) - 1 + eAdj + eAdj2 - scaleBits
        if E < -126 ∨ 127 < E then none
        else some ((E + 127).toNat * 2 ^ 23 + (q - 2 ^ 23))
    | _, _ => none

/-- One step of the interval iteration: multiply a bracket for
`exp (-k/128)` by the bracket for `exp (-1/128)`, rounding the lower
endpoint down and the upper endpoint up. -/
def boundsStep (p : ℕ × ℕ) : ℕ × ℕ :=
  ((p.1 * expStepLo) >>> scaleBits, ((p.2 * expStepHi) >>> scaleBits) + 1)

/-- `wordsFrom n p`: the binary32 words of `n + 1` successive interval
brackets starting at `p`, written with `Nat.rec` so that kernel reduction
is iterative. -/
def wordsFrom (n : ℕ) : ℕ × ℕ → List (Option ℕ) :=
  Nat.rec (motive := fun _ => ℕ × ℕ → List (Option ℕ))
    (fun p => [f32WordOfBounds p.1 p.2])
    (fun _ ih p => f32WordOfBounds p.1 p.2 :: ih (boundsStep p))
    n

/-- Modelled from the spec: `std::exp` (src line 28) is an external library
routine whose source is not part of this repository; §4.1 of the spec fixes
the sample value to `exp (-k * (1/128))` "computed at double precision",
then narrowed to single precision under round-to-nearest-even.  (The input
`x = -k * (1/128)` is exactly representable in binary64 for `k ≤ 1024`, so
the real-number exponent is exact.)  Entry `k` is `fl32 (fl64 (exp (-k/128)))`
as a binary32 bit pattern, or `none` if the bracket of
`exp (-1/128) ^ k = exp (-k/128)` failed to determine the rounding; the
starting bracket at `k = 0` is exact, so entry 0 is the pattern of `1.0f`. -/
def expTableOpt : List (Option ℕ) := wordsFrom 1024 (2 ^ scaleBits, 2 ^ scaleBits)

/-- The 1025 binary32 bit patterns of `float (exp (-k/128))`, `k = 0, …, 1024`
(0 would stand for an undetermined rounding; none occurs). -/
def expTable : List ℕ := expTableOpt.map (fun o => o.getD 0)

/-- The binary32 bit pattern of `y = float (exp (-k * (1/128)))`
(src lines 27–28). -/
def expWord (k : ℕ) : ℕ := expTable.getD k 0

/-! ## Reference literal for the table (equality is proved by `expTable_eq`) -/

/-- Entries 0–127 of the table literal. -/
def expChunk0 : List ℕ := [1065353216, 1065222655, 1065093109, 1064964572, 1064837035, 1064710491,
  1064584931, 1064460349, 1064336736, 1064214085, 1064092388, 1063971639, 1063851829, 1063732952,
  1063614999, 1063497965, 1063381841, 1063266621, 1063152298, 1063038864, 1062926313, 1062814638,
  1062703832, 1062593889, 1062484801, 1062376561, 1062269165, 1062162604, 1062056872, 1061951963,
  1061847870, 1061744588, 1061642109, 1061540428, 1061439538, 1061339433, 1061240107, 1061141554,
  1061043768, 1060946743, 1060850473, 1060754953, 1060660175, 1060566136, 1060472828, 1060380246,
  1060288384, 1060197238, 1060106801, 1060017067, 1059928032, 1059839690, 1059752035, 1059665063,
  1059578767, 1059493143, 1059408185, 1059323888, 1059240247, 1059157257, 1059074913, 1058993210,
  1058912143, 1058831706, 1058751896, 1058672706, 1058594133, 1058516172, 1058438816, 1058362063,
  1058285908, 1058210345, 1058135370, 1058060978, 1057987165, 1057913927, 1057841259, 1057769156,
  1057697614, 1057626629, 1057556197, 1057486312, 1057416972, 1057348171, 1057279905, 1057212171,
  1057144963, 1057078279, 1057012114, 1056928319, 1056798040, 1056668775, 1056540516, 1056413255,
  1056286984, 1056161696, 1056037383, 1055914038, 1055791652, 1055670219, 1055549730, 1055430180,
  1055311559, 1055193862, 1055077081, 1054961208, 1054846238, 1054732162, 1054618973, 1054506666,
  1054395232, 1054284666, 1054174960, 1054066108, 1053958103, 1053850939, 1053744608, 1053639105,
  1053534423, 1053430555, 1053327496, 1053225239, 1053123778, 1053023106, 1052923218, 1052824107,
  1052725767, 1052628193]

/-- Entries 128–255 of the table literal. -/
def expChunk1 : List ℕ := [1052531378, 1052435316, 1052340002, 1052245430, 1052151593, 1052058487,
  1051966105, 1051874443, 1051783493, 1051693252, 1051603713, 1051514870, 1051426719, 1051339254,
  1051252469, 1051166360, 1051080921, 1050996147, 1050912033, 1050828573, 1050745762, 1050663597,
  1050582070, 1050501178, 1050420916, 1050341278, 1050262259, 1050183856, 1050106063, 1050028875,
  1049952288, 1049876297, 1049800898, 1049726085, 1049651854, 1049578201, 1049505121, 1049432610,
  1049360663, 1049289276, 1049218445, 1049148165, 1049078431, 1049009241, 1048940589, 1048872471,
  1048804883, 1048737821, 1048671281, 1048605259, 1048503501, 1048373504, 1048244518, 1048116537,
  1047989551, 1047863553, 1047738536, 1047614492, 1047491413, 1047369292, 1047248122, 1047127894,
  1047008602, 1046890238, 1046772796, 1046656267, 1046540645, 1046425923, 1046312094, 1046199150,
  1046087086, 1045975893, 1045865566, 1045756098, 1045647481, 1045539709, 1045432777, 1045326676,
  1045221401, 1045116946, 1045013303, 1044910467, 1044808431, 1044707189, 1044606735, 1044507063,
  1044408166, 1044310039, 1044212676, 1044116070, 1044020216, 1043925108, 1043830740, 1043737107,
  1043644202, 1043552020, 1043460556, 1043369803, 1043279757, 1043190411, 1043101761, 1043013800,
  1042926525, 1042839928, 1042754005, 1042668751, 1042584160, 1042500227, 1042416948, 1042334317,
  1042252329, 1042170979, 1042090262, 1042010173, 1041930707, 1041851860, 1041773626, 1041696001,
  1041618981, 1041542559, 1041466733, 1041391496, 1041316845, 1041242775, 1041169281, 1041096359,
  1041024005, 1040952214]

/-- Entries 256–383 of the table literal. -/
def expChunk2 : List ℕ := [1040880981, 1040810303, 1040740175, 1040670592, 1040601551, 1040533048,
  1040465077, 1040397635, 1040330719, 1040264323, 1040198443, 1040078761, 1039949045, 1039820339,
  1039692634, 1039565923, 1039440198, 1039315451, 1039191675, 1039068863, 1038947006, 1038826097,
  1038706130, 1038587095, 1038468988, 1038351799, 1038235522, 1038120151, 1038005677, 1037892094,
  1037779395, 1037667572, 1037556620, 1037446532, 1037337300, 1037228918, 1037121380, 1037014679,
  1036908808, 1036803760, 1036699531, 1036596112, 1036493498, 1036391683, 1036290660, 1036190424,
  1036090967, 1035992284, 1035894369, 1035797217, 1035700820, 1035605173, 1035510271, 1035416107,
  1035322677, 1035229973, 1035137990, 1035046724, 1034956167, 1034866316, 1034777163, 1034688705,
  1034600935, 1034513847, 1034427438, 1034341701, 1034256631, 1034172223, 1034088473, 1034005373,
  1033922921, 1033841110, 1033759936, 1033679393, 1033599478, 1033520184, 1033441507, 1033363443,
  1033285986, 1033209132, 1033132876, 1033057213, 1032982139, 1032907650, 1032833740, 1032760405,
  1032687641, 1032615443, 1032543807, 1032472729, 1032402203, 1032332227, 1032262795, 1032193903,
  1032125548, 1032057724, 1031990428, 1031923656, 1031857404, 1031784550, 1031654099, 1031524664,
  1031396236, 1031268807, 1031142370, 1031016917, 1030892440, 1030768932, 1030646385, 1030524792,
  1030404145, 1030284437, 1030165660, 1030047808, 1029930873, 1029814848, 1029699725, 1029585499,
  1029472162, 1029359706, 1029248126, 1029137414, 1029027564, 1028918568, 1028810421, 1028703115,
  1028596644, 1028491002]

/-- Entries 384–511 of the table literal. -/
def expChunk3 : List ℕ := [1028386182, 1028282178, 1028178983, 1028076591, 1027974996, 1027874192,
  1027774172, 1027674931, 1027576461, 1027478758, 1027381816, 1027285628, 1027190188, 1027095491,
  1027001531, 1026908302, 1026815799, 1026724015, 1026632946, 1026542586, 1026452928, 1026363969,
  1026275702, 1026188121, 1026101222, 1026015000, 1025929448, 1025844563, 1025760337, 1025676768,
  1025593848, 1025511574, 1025429940, 1025348942, 1025268573, 1025188830, 1025109708, 1025031202,
  1024953306, 1024876017, 1024799329, 1024723238, 1024647739, 1024572827, 1024498499, 1024424749,
  1024351573, 1024278966, 1024206924, 1024135443, 1024064518, 1023994146, 1023924320, 1023855039,
  1023786296, 1023718088, 1023650412, 1023583261, 1023516634, 1023450525, 1023359684, 1023229516,
  1023100360, 1022972210, 1022845057, 1022718893, 1022593712, 1022469504, 1022346263, 1022223981,
  1022102651, 1021982265, 1021862815, 1021744296, 1021626698, 1021510016, 1021394242, 1021279369,
  1021165390, 1021052297, 1020940085, 1020828746, 1020718274, 1020608661, 1020499901, 1020391988,
  1020284914, 1020178674, 1020073260, 1019968667, 1019864888, 1019761916, 1019659746, 1019558370,
  1019457784, 1019357981, 1019258954, 1019160697, 1019063206, 1018966473, 1018870493, 1018775259,
  1018680767, 1018587011, 1018493983, 1018401680, 1018310095, 1018219223, 1018129058, 1018039595,
  1017950828, 1017862751, 1017775360, 1017688649, 1017602613, 1017517247, 1017432545, 1017348502,
  1017265113, 1017182373, 1017100276, 1017018819, 1016937996, 1016857801, 1016778231, 1016699280,
  1016620943, 1016543216]

/-- Entries 512–639 of the table literal. -/
def expChunk4 : List ℕ := [1016466094, 1016389572, 1016313645, 1016238309, 1016163560, 1016089392,
  1016015802, 1015942784, 1015870334, 1015798448, 1015727122, 1015656351, 1015586130, 1015516456,
  1015447324, 1015378730, 1015310670, 1015243140, 1015176135, 1015109651, 1015043685, 1014934896,
  1014805010, 1014676134, 1014548260, 1014421382, 1014295492, 1014170581, 1014046642, 1013923667,
  1013801650, 1013680582, 1013560457, 1013441266, 1013323002, 1013205659, 1013089230, 1012973706,
  1012859081, 1012745348, 1012632501, 1012520531, 1012409433, 1012299200, 1012189824, 1012081299,
  1011973619, 1011866777, 1011760767, 1011655581, 1011551214, 1011447659, 1011344910, 1011242961,
  1011141805, 1011041436, 1010941849, 1010843036, 1010744992, 1010647711, 1010551188, 1010455415,
  1010360388, 1010266100, 1010172546, 1010079720, 1009987617, 1009896230, 1009805554, 1009715584,
  1009626314, 1009537739, 1009449853, 1009362652, 1009276128, 1009190278, 1009105096, 1009020577,
  1008936716, 1008853508, 1008770946, 1008689028, 1008607747, 1008527098, 1008447077, 1008367679,
  1008288899, 1008210731, 1008133172, 1008056217, 1007979860, 1007904098, 1007828925, 1007754338,
  1007680330, 1007606899, 1007534039, 1007461746, 1007390016, 1007318844, 1007248225, 1007178157,
  1007108633, 1007039651, 1006971205, 1006903292, 1006835908, 1006769048, 1006702708, 1006636885,
  1006510187, 1006380581, 1006251984, 1006124387, 1005997784, 1005872165, 1005747525, 1005623854,
  1005501145, 1005379392, 1005258586, 1005138720, 1005019787, 1004901780, 1004784690, 1004668512,
  1004553239, 1004438862]

/-- Entries 640–767 of the table literal. -/
def expChunk5 : List ℕ := [1004325375, 1004212771, 1004101044, 1003990186, 1003880191, 1003771052,
  1003662762, 1003555315, 1003448704, 1003342923, 1003237965, 1003133824, 1003030493, 1002927966,
  1002826237, 1002725300, 1002625149, 1002525776, 1002427177, 1002329346, 1002232275, 1002135960,
  1002040395, 1001945573, 1001851489, 1001758138, 1001665513, 1001573608, 1001482419, 1001391940,
  1001302164, 1001213088, 1001124704, 1001037008, 1000949995, 1000863659, 1000777995, 1000692997,
  1000608661, 1000524981, 1000441952, 1000359570, 1000277828, 1000196723, 1000116249, 1000036401,
  999957174, 999878564, 999800566, 999723175, 999646386, 999570195, 999494596, 999419586,
  999345160, 999271312, 999198040, 999125338, 999053201, 998981626, 998910608, 998840142,
  998770225, 998700852, 998632019, 998563721, 998495955, 998428717, 998362001, 998295805,
  998215896, 998085556, 997956230, 997827911, 997700591, 997574261, 997448914, 997324543,
  997201140, 997078697, 996957207, 996836662, 996717055, 996598380, 996480627, 996363791,
  996247865, 996132840, 996018711, 995905470, 995793110, 995681624, 995571006, 995461249,
  995352346, 995244290, 995137075, 995030695, 994925143, 994820412, 994716496, 994613388,
  994511083, 994409575, 994308856, 994208921, 994109763, 994011378, 993913757, 993816897,
  993720791, 993625432, 993530815, 993436935, 993343785, 993251360, 993159655, 993068663,
  992978379, 992888798, 992799914, 992711721, 992624215, 992537390, 992451241, 992365762,
  992280948, 992196794]

/-- Entries 768–895 of the table literal. -/
def expChunk6 : List ℕ := [992113296, 992030446, 991948242, 991866678, 991785748, 991705448,
  991625772, 991546717, 991468277, 991390448, 991313224, 991236601, 991160575, 991085140,
  991010292, 990936026, 990862339, 990789225, 990716680, 990644699, 990573279, 990502414,
  990432101, 990362335, 990293112, 990224428, 990156278, 990088659, 990021566, 989954994,
  989888941, 989791061, 989661003, 989531957, 989403915, 989276870, 989150814, 989025738,
  988901636, 988778500, 988656321, 988535094, 988414810, 988295462, 988177043, 988059546,
  987942962, 987827286, 987712511, 987598628, 987485632, 987373515, 987262270, 987151892,
  987042372, 986933704, 986825882, 986718900, 986612749, 986507425, 986402921, 986299230,
  986196345, 986094262, 985992972, 985892471, 985792752, 985693810, 985595637, 985498228,
  985401577, 985305678, 985210526, 985116114, 985022437, 984929488, 984837263, 984745756,
  984654961, 984564873, 984475485, 984386793, 984298792, 984211475, 984124838, 984038875,
  983953580, 983868950, 983784978, 983701660, 983618990, 983536964, 983455576, 983374821,
  983294694, 983215191, 983136307, 983058037, 982980376, 982903319, 982826862, 982751000,
  982675728, 982601042, 982526937, 982453409, 982380453, 982308065, 982236240, 982164974,
  982094263, 982024102, 981954487, 981885414, 981816878, 981748876, 981681403, 981614454,
  981548027, 981482117, 981366304, 981236527, 981107761, 980979996, 980853226, 980727442,
  980602637, 980478803]

/-- Entries 896–1023 of the table literal. -/
def expChunk7 : List ℕ := [980355933, 980234019, 980113054, 979993030, 979873940, 979755777,
  979638534, 979522203, 979406777, 979292250, 979178613, 979065862, 978953987, 978842983,
  978732843, 978623560, 978515128, 978407539, 978300788, 978194867, 978089771, 977985492,
  977882025, 977779364, 977677501, 977576431, 977476147, 977376644, 977277915, 977179954,
  977082756, 976986314, 976890623, 976795676, 976701469, 976607994, 976515247, 976423222,
  976331912, 976241314, 976151420, 976062226, 975973726, 975885915, 975798787, 975712337,
  975626560, 975541450, 975457003, 975373213, 975290075, 975207583, 975125734, 975044522,
  974963942, 974883989, 974804658, 974725945, 974647844, 974570350, 974493460, 974417169,
  974341471, 974266362, 974191837, 974117893, 974044524, 973971725, 973899494, 973827824,
  973756713, 973686154, 973616145, 973546681, 973477757, 973409369, 973341514, 973274187,
  973207383, 973141100, 973072137, 972941625, 972812129, 972683641, 972556153, 972429657,
  972304145, 972179610, 972056044, 971933440, 971811789, 971691086, 971571322, 971452490,
  971334582, 971217592, 971101513, 970986337, 970872057, 970758667, 970646159, 970534526,
  970423762, 970313861, 970204814, 970096616, 969989260, 969882740, 969777048, 969672179,
  969568126, 969464883, 969362444, 969260801, 969159949, 969059883, 968960595, 968862079,
  968764331, 968667343, 968571110, 968475625, 968380884, 968286880, 968193608, 968101061,
  968009235, 967918123]

/-- Entries 1024–1024 of the table literal. -/
def expChunk8 : List ℕ := [967827720]

/-- The table of `expWord` values, as an explicit literal; `expTable_eq` below
proves it equal to the computed `expTable`, and later proofs evaluate on the
literal. -/
def expTableLit : List ℕ :=
  expChunk0 ++ expChunk1 ++ expChunk2 ++ expChunk3 ++ expChunk4 ++ expChunk5 ++ expChunk6 ++ expChunk7 ++ expChunk8

/-! ## The float-to-integer bit reinterpretation (src lines 8–12) -/

/-- An IEEE-754 binary32 value as stored in memory: a sign bit, an 8-bit
biased exponent and a 23-bit fraction. -/
structure F32 where
  sign : Bool
  biasedExp : ℕ
  frac : ℕ

/-- The 32-bit pattern of a stored float: sign in bit 31, biased exponent in
bits 30–23, fraction in bits 22–0. -/
def F32.bits (f : F32) : ℕ :=
  (cond f.sign 1 0) * 2 ^ 31 + f.biasedExp % 2 ^ 8 * 2 ^ 23 + f.frac % 2 ^ 23

/-- The four bytes of the float in memory, least significant first (the
host is little-endian; the byte order cancels in `float_to_u32`, which
reassembles an integer of the same endianness). -/
def F32.bytes (f : F32) : List ℕ :=
  [f.bits % 2 ^ 8, f.bits / 2 ^ 8 % 2 ^ 8, f.bits / 2 ^ 16 % 2 ^ 8, f.bits / 2 ^ 24 % 2 ^ 8]

/-- A `uint32_t` assembled from its memory bytes, least significant first. -/
def u32OfBytes : List ℕ → ℕ
  | [] => 0
  | b :: bs => b % 2 ^ 8 + 2 ^ 8 * u32OfBytes bs

/-- `float_to_u32` (src lines 8–12): `std::memcpy(&u, &v, sizeof(u))` copies
the four memory bytes of the float `v` into the `uint32_t` `u`. -/
def float_to_u32 (v : F32) : ℕ := u32OfBytes v.bytes

/-- The stored float with a given 32-bit pattern (how the model hands the
narrowed value `y` of src line 28 to `float_to_u32`). -/
def F32.ofBits (u : ℕ) : F32 :=
  ⟨decide (u / 2 ^ 31 % 2 = 1), u / 2 ^ 23 % 2 ^ 8, u % 2 ^ 23⟩

/-! ## Hexadecimal rendering and parsing (src lines 24 and 30) -/

/-- The sixteen digit characters printed by `std::hex` (lowercase). -/
def hexDigitChars : List Char := "0123456789abcdef".data

/-- The hex digit character for `n` (taken mod 16). -/
def hexDigitChar (n : ℕ) : Char := hexDigitChars.getD (n % 16) '0'

/-- The base-16 digits of `n`, least significant first, with explicit fuel
so that the recursion is structural (`[]` for 0; 16 digits suffice up to
`2 ^ 64`). -/
def hexDigitsRev : ℕ → ℕ → List Char
  | 0, _ => []
  | fuel+1, n => if n = 0 then [] else hexDigitChar (n % 16) :: hexDigitsRev fuel (n / 16)

/-- The digits `operator<<` prints for `n` under `std::hex`: most
significant first, no leading zeros, and a single `'0'` for 0. -/
def natToHexDigits (n : ℕ) : List Char :=
  if n = 0 then ['0'] else (hexDigitsRev 16 n).reverse

/-- The effect of `std::setw(8)` with `std::setfill('0')` (src lines 24
and 30): pad on the left to width 8; wider values print in full. -/
def padTo8 (ds : List Char) : List Char :=
  List.replicate (8 - ds.length) '0' ++ ds

/-- One output line of the loop body (src line 30):
`ofs << std::setw(8) << u << "\n"`. -/
def hexLine (u : ℕ) : String := ⟨padTo8 (natToHexDigits u) ++ ['\n']⟩

/-- Numeric value of a hex digit character (0 for anything else). -/
def hexVal (c : Char) : ℕ :=
  if 48 ≤ c.toNat ∧ c.toNat ≤ 57 then c.toNat - 48
  else if 97 ≤ c.toNat ∧ c.toNat ≤ 102 then c.toNat - 87
  else 0

/-- Parse the first 8 characters of a line as an unsigned 32-bit hex
numeral, most significant digit first (the independent decoding step of
spec §8). -/
def parseHexU32 (s : String) : ℕ :=
  (s.data.take 8).foldl (fun a c => 16 * a + hexVal c) 0 % 2 ^ 32

/-! ## The generator program (src lines 14–36) -/

/-- `const int STEPS = 1024` (src line 15). -/
def STEPS : ℕ := 1024

/-- `const double STEP = 1.0 / 128.0` (src line 16); `1/128 = 2⁻⁷` is
exactly representable in binary64, so the model uses the exact rational. -/
def STEP : ℚ := 1 / 128

/-- The loop variable `x = -k * STEP` (src line 27); `k * 2⁻⁷` is exactly
representable in binary64 for `0 ≤ k ≤ 1024`, so the model uses the exact
rational value. -/
def xOfK (k : ℕ) : ℚ := -(k : ℚ) * STEP

/-- The `uint32_t u` of loop iteration `k` (src lines 27–29): the narrowed
float `y = float(exp x)` pushed through `float_to_u32`. -/
def uOfK (k : ℕ) : ℕ := float_to_u32 (F32.ofBits (expWord k))

/-- The line written for one table word: the loop body's formatting applied
to `float_to_u32` of the stored float. -/
def lineOfWord (w : ℕ) : String := hexLine (float_to_u32 (F32.ofBits w))

/-- The 1025 lines written by the loop (src lines 26–31), in loop order:
line `k` holds the word of sample index `k`. -/
def tableLines : List String := expTable.map lineOfWord

/-- The fixed output file name (src line 18). -/
def outFileName : String := "exp_lut_1over128.hex"

/-- The diagnostic printed to `std::cerr` when the open fails (src line 20). -/
def openFailMsg : String := "Failed to open output file.\n"

/-- The confirmation printed to `std::cout` on success (src line 34). -/
def successMsg : String := "Generated exp_lut_1over128.hex with 1025 entries.\n"

/-- Observable events of a run, in program order. -/
inductive Ev where
  /-- A line written to the output file stream. -/
  | fileWrite (s : String)
  /-- `ofs.close()`, flushing the stream. -/
  | fileClose
  /-- A message written to `std::cerr`. -/
  | errWrite (s : String)
  /-- A message written to `std::cout`. -/
  | outWrite (s : String)

/-- Whether an event is a file-stream write. -/
def Ev.isFileWrite : Ev → Bool
  | .fileWrite _ => true
  | _ => false

/-- Whether an event is a `std::cout` write. -/
def Ev.isOutWrite : Ev → Bool
  | .outWrite _ => true
  | _ => false

/-- Whether an event is a `std::cerr` write. -/
def Ev.isErrWrite : Ev → Bool
  | .errWrite _ => true
  | _ => false

/-- `main` (src lines 14–36), as the ordered event trace and the exit
status.  `openOk` is whether `std::ofstream ofs("exp_lut_1over128.hex")`
(src line 18) succeeded: on failure the program prints a diagnostic to
`std::cerr` and returns 1 before writing anything (src lines 19–22); on
success it writes the 1025 lines in loop order, closes the stream, prints
the confirmation to `std::cout` and returns 0 (src lines 24–35). -/
def runProg (openOk : Bool) : List Ev × ℕ :=
  if openOk then
    (tableLines.map Ev.fileWrite ++ [Ev.fileClose, Ev.outWrite successMsg], 0)
  else
    ([Ev.errWrite openFailMsg], 1)

/-- The content of `exp_lut_1over128.hex` after a run, given the content
before it (`none`: no such file).  Opening an `std::ofstream` with the
default mode truncates: an existing file is fully overwritten, so on a
successful open the previous content is discarded entirely (src line 18);
if the open fails the file is untouched. -/
def runFileContent (openOk : Bool) (prev : Option String) : Option String :=
  if openOk then some (String.join tableLines) else prev

/-! ## Decidable per-element checks and substring search -/

/-- Numeric facts checked for every table word `w` (evaluated once over the
literal): the invariant range `0x39000000 ≤ w ≤ 0x3f800000`, a biased
exponent field in the normal range `[1, 254]`, and a clear sign bit. -/
def wordCheck (w : ℕ) : Bool :=
  decide (0x39000000 ≤ w) && decide (w ≤ 0x3f800000) &&
  decide (1 ≤ w / 2 ^ 23 % 2 ^ 8) && decide (w / 2 ^ 23 % 2 ^ 8 ≤ 254) &&
  decide (w / 2 ^ 31 % 2 = 0)

/-- Whether the first list is an initial run of the second. -/
def listStarts : List Char → List Char → Bool
  | [], _ => true
  | _ :: _, [] => false
  | c :: cs, d :: ds => c = d && listStarts cs ds

/-- Whether the second list occurs contiguously inside the first. -/
def listHas : List Char → List Char → Bool
  | [], n => n.isEmpty
  | c :: cs, n => listStarts n (c :: cs) || listHas cs n

/-! ## Evaluation of the model and bridging lemmas -/

set_option maxHeartbeats 16000000

/-- The computed table evaluates to the literal (single expensive kernel
evaluation; later proofs work on the literal). -/
theorem expTable_eq : expTable = expTableLit := by rfl

theorem expTableLit_length : expTableLit.length = 1025 := by decide

theorem expTable_length : expTable.length = 1025 := by
  rw [expTable_eq, expTableLit_length]

theorem expTableOpt_length : expTableOpt.length = 1025 := by
  calc expTableOpt.length = expTable.length := (List.length_map _ _).symm
    _ = 1025 := expTable_length

/-- Every table word satisfies `wordCheck`. -/
theorem wordChecks_all : expTableLit.all wordCheck = true := by decide

/-- Adjacent table words strictly decrease. -/
theorem zipChecks_all :
    ((expTableLit.zip expTableLit.tail).all fun p => decide (p.2 < p.1)) = true := by decide

/-- A positionally indexed element of a list inherits an `all`-checked
property. -/
theorem getD_of_all {α : Type} {l : List α} {p : α → Bool} (h : l.all p = true)
    {k : ℕ} (hk : k < l.length) (d : α) : p (l.getD k d) = true := by
  rw [List.getD_eq_getElem l d hk]
  exact List.all_eq_true.mp h _ (List.getElem_mem hk)

/-- An `all`-checked property can be weakened pointwise. -/
theorem all_of_all_imp {α : Type} {l : List α} {p q : α → Bool} (h : l.all p = true)
    (himp : ∀ w, p w = true → q w = true) : l.all q = true := by
  rw [List.all_eq_true] at h ⊢
  exact fun x hx => himp x (h x hx)

/-- Indexing into a mapped list, with the source list's default. -/
theorem getD_map_at {α : Type} (f : ℕ → α) (l : List ℕ) {k : ℕ} (hk : k < l.length)
    (d : α) : (l.map f).getD k d = f (l.getD k 0) := by
  rw [List.getD_eq_getElem _ d (by simpa using hk), List.getD_eq_getElem _ 0 hk,
    List.getElem_map]

/-- Positional form of the zipped adjacent-pairs check. -/
theorem getD_lt_of_zipTail {l : List ℕ}
    (h : ((l.zip l.tail).all fun p => decide (p.2 < p.1)) = true)
    {k : ℕ} (hk : k + 1 < l.length) : l.getD (k + 1) 0 < l.getD k 0 := by
  have hkz : k < (l.zip l.tail).length := by
    rw [List.length_zip, List.length_tail]
    omega
  have hmem := List.all_eq_true.mp h _ (List.getElem_mem hkz)
  rw [List.getElem_zip, List.getElem_tail] at hmem
  have := of_decide_eq_true hmem
  rwa [List.getD_eq_getElem l 0 (by omega), List.getD_eq_getElem l 0 (by omega)]

/-- A list of options whose defaulted values are all positive consists of
`some`s. -/
theorem all_isSome_of_map_pos :
    ∀ l : List (Option ℕ),
      ((l.map fun o => o.getD 0).all fun w => decide (0 < w)) = true →
        l.all Option.isSome = true := by
  intro l h
  induction l with
  | nil => rfl
  | cons o t ih =>
    rw [List.map_cons, List.all_cons, Bool.and_eq_true] at h
    rw [List.all_cons, Bool.and_eq_true]
    refine ⟨?_, ih h.2⟩
    cases o with
    | none => exact absurd (of_decide_eq_true h.1) (by simp)
    | some w => rfl

/-- No bracket in the interval pipeline failed to determine its rounding. -/
theorem expTableOpt_all_isSome : expTableOpt.all Option.isSome = true := by
  apply all_isSome_of_map_pos
  have hmap : (expTableOpt.map fun o => o.getD 0) = expTable := rfl
  rw [hmap, expTable_eq]
  exact all_of_all_imp wordChecks_all fun w hw => by
    simp only [wordCheck, Bool.and_eq_true, decide_eq_true_eq] at hw
    exact decide_eq_true (by omega)

/-! ## Correctness of the hexadecimal rendering -/

theorem hexDigitsRev_zero (fuel : ℕ) : hexDigitsRev fuel 0 = [] := by
  cases fuel <;> rfl

theorem hexDigitsRev_succ (fuel n : ℕ) :
    hexDigitsRev (fuel + 1) n =
      if n = 0 then [] else hexDigitChar (n % 16) :: hexDigitsRev fuel (n / 16) := rfl

theorem hexDigitChars_length : hexDigitChars.length = 16 := rfl

theorem hexDigitChar_mem (n : ℕ) : hexDigitChar n ∈ hexDigitChars := by
  unfold hexDigitChar
  rw [List.getD_eq_getElem hexDigitChars '0'
    (by rw [hexDigitChars_length]; exact Nat.mod_lt _ (by norm_num))]
  exact List.getElem_mem _

theorem hexVal_hexDigitChar (n : ℕ) : hexVal (hexDigitChar n) = n % 16 := by
  have h : n % 16 < 16 := Nat.mod_lt _ (by norm_num)
  have hc : hexDigitChar n = hexDigitChars.getD (n % 16) '0' := rfl
  rw [hc]
  set m := n % 16 with hm
  interval_cases m <;> decide

/-- The digit recursion never produces more than `j` digits for `n < 16 ^ j`. -/
theorem hexDigitsRev_length_le (fuel : ℕ) :
    ∀ j n : ℕ, n < 16 ^ j → (hexDigitsRev fuel n).length ≤ j := by
  induction fuel with
  | zero => intro j n _; simp [hexDigitsRev]
  | succ fuel ih =>
    intro j n hn
    rw [hexDigitsRev_succ]
    split
    · simp
    · rename_i hne
      cases j with
      | zero => norm_num at hn; omega
      | succ j =>
        simp only [List.length_cons]
        have hdiv : n / 16 < 16 ^ j := by
          rw [Nat.div_lt_iff_lt_mul (by norm_num)]
          calc n < 16 ^ (j + 1) := hn
            _ = 16 ^ j * 16 := pow_succ 16 j
        have := ih j (n / 16) hdiv
        omega

/-- The digit recursion produces at least `j + 1` digits for `16 ^ j ≤ n`. -/
theorem hexDigitsRev_length_ge (fuel : ℕ) :
    ∀ j n : ℕ, 16 ^ j ≤ n → j < fuel → j + 1 ≤ (hexDigitsRev fuel n).length := by
  induction fuel with
  | zero => intro j n _ h; omega
  | succ fuel ih =>
    intro j n hj hf
    have hpos : 0 < 16 ^ j := pow_pos (by norm_num) j
    have hne : n ≠ 0 := by omega
    rw [hexDigitsRev_succ, if_neg hne]
    simp only [List.length_cons]
    cases j with
    | zero => omega
    | succ j =>
      have hdiv : 16 ^ j ≤ n / 16 := by
        rw [Nat.le_div_iff_mul_le (by norm_num)]
        calc 16 ^ j * 16 = 16 ^ (j + 1) := (pow_succ 16 j).symm
          _ ≤ n := hj
      have := ih j (n / 16) hdiv (by omega)
      omega

/-- Parsing the (most-significant-first) digits of `n` recovers `n`. -/
theorem foldl_hexDigitsRev (fuel : ℕ) :
    ∀ n : ℕ, n < 16 ^ fuel →
      (hexDigitsRev fuel n).reverse.foldl (fun a c => 16 * a + hexVal c) 0 = n := by
  induction fuel with
  | zero => intro n hn; norm_num at hn; simp [hexDigitsRev, hn]
  | succ fuel ih =>
    intro n hn
    rw [hexDigitsRev_succ]
    split
    · rename_i h; simp [h]
    · rename_i hne
      have hdiv : n / 16 < 16 ^ fuel := by
        rw [Nat.div_lt_iff_lt_mul (by norm_num)]
        calc n < 16 ^ (fuel + 1) := hn
          _ = 16 ^ fuel * 16 := pow_succ 16 fuel
      rw [List.reverse_cons, List.foldl_append, ih (n / 16) hdiv]
      simp only [List.foldl_cons, List.foldl_nil]
      rw [hexVal_hexDigitChar]
      omega

/-- Every produced digit character is one of the sixteen hex digits. -/
theorem mem_hexDigitsRev (fuel : ℕ) :
    ∀ n c, c ∈ hexDigitsRev fuel n → c ∈ hexDigitChars := by
  induction fuel with
  | zero => intro n c h; simp [hexDigitsRev] at h
  | succ fuel ih =>
    intro n c h
    rw [hexDigitsRev_succ] at h
    split at h
    · simp at h
    · rcases List.mem_cons.mp h with h | h
      · exact h ▸ hexDigitChar_mem _
      · exact ih _ _ h

/-- The most significant produced digit is the leading digit of `n`. -/
theorem hexDigitsRev_getLast (fuel : ℕ) :
    ∀ j n : ℕ, 16 ^ j ≤ n → n < 16 ^ (j + 1) → j < fuel →
      (hexDigitsRev fuel n).getLast? = some (hexDigitChar (n / 16 ^ j)) := by
  induction fuel with
  | zero => intro j n _ _ h; omega
  | succ fuel ih =>
    intro j n hlo hhi hf
    have hpos : 0 < 16 ^ j := pow_pos (by norm_num) j
    have hne : n ≠ 0 := by omega
    rw [hexDigitsRev_succ, if_neg hne]
    cases j with
    | zero =>
      have h16 : n < 16 := by norm_num at hhi; omega
      rw [Nat.div_eq_of_lt h16, hexDigitsRev_zero]
      rw [List.getLast?_cons, pow_zero, Nat.div_one, Nat.mod_eq_of_lt h16]
      rfl
    | succ j =>
      have hdivlo : 16 ^ j ≤ n / 16 := by
        rw [Nat.le_div_iff_mul_le (by norm_num)]
        calc 16 ^ j * 16 = 16 ^ (j + 1) := (pow_succ 16 j).symm
          _ ≤ n := hlo
      have hdivhi : n / 16 < 16 ^ (j + 1) := by
        rw [Nat.div_lt_iff_lt_mul (by norm_num)]
        calc n < 16 ^ (j + 1 + 1) := hhi
          _ = 16 ^ (j + 1) * 16 := pow_succ 16 (j + 1)
      rw [List.getLast?_cons, ih j (n / 16) hdivlo hdivhi (by omega)]
      rw [Nat.div_div_eq_div_mul, mul_comm, ← pow_succ]
      rfl

/-! ## Shape and round-trip of a printed line -/

theorem natToHexDigits_length_le {u : ℕ} (h8 : u < 16 ^ 8) :
    (natToHexDigits u).length ≤ 8 := by
  unfold natToHexDigits
  split
  · simp
  · rw [List.length_reverse]
    exact hexDigitsRev_length_le 16 8 u h8

theorem natToHexDigits_length_eight {u : ℕ} (h7 : 16 ^ 7 ≤ u) (h8 : u < 16 ^ 8) :
    (natToHexDigits u).length = 8 := by
  have hpos : 0 < 16 ^ 7 := by norm_num
  have hne : u ≠ 0 := by omega
  unfold natToHexDigits
  rw [if_neg hne, List.length_reverse]
  have hle := hexDigitsRev_length_le 16 8 u h8
  have hge := hexDigitsRev_length_ge 16 7 u h7 (by norm_num)
  omega

theorem padTo8_length {ds : List Char} (h : ds.length ≤ 8) : (padTo8 ds).length = 8 := by
  unfold padTo8
  rw [List.length_append, List.length_replicate]
  omega

theorem padTo8_of_length_eight {ds : List Char} (h : ds.length = 8) : padTo8 ds = ds := by
  unfold padTo8
  rw [h]
  norm_num

theorem foldl_replicate_zero (j : ℕ) :
    (List.replicate j '0').foldl (fun a c => 16 * a + hexVal c) 0 = 0 := by
  induction j with
  | zero => rfl
  | succ j ih =>
    rw [List.replicate_succ, List.foldl_cons]
    have h0 : 16 * 0 + hexVal '0' = 0 := by decide
    rw [h0, ih]

theorem parse_padded {u : ℕ} (h8 : u < 16 ^ 8) :
    (padTo8 (natToHexDigits u)).foldl (fun a c => 16 * a + hexVal c) 0 = u := by
  unfold padTo8
  rw [List.foldl_append, foldl_replicate_zero]
  unfold natToHexDigits
  split
  · rename_i h
    subst h
    decide
  · exact foldl_hexDigitsRev 16 u (lt_of_lt_of_le h8 (by norm_num))

theorem hexLine_data (u : ℕ) : (hexLine u).data = padTo8 (natToHexDigits u) ++ ['\n'] := rfl

/-- Parsing a printed line recovers the printed word (spec §8, line round
trip). -/
theorem parse_hexLine {u : ℕ} (h8 : u < 16 ^ 8) : parseHexU32 (hexLine u) = u := by
  have hlen : (padTo8 (natToHexDigits u)).length = 8 := padTo8_length (natToHexDigits_length_le h8)
  unfold parseHexU32
  rw [hexLine_data, List.take_left' hlen, parse_padded h8]
  have : (16 : ℕ) ^ 8 = 2 ^ 32 := by norm_num
  omega

/-- A printed line is 8 characters plus the newline. -/
theorem hexLine_length {u : ℕ} (h8 : u < 16 ^ 8) : (hexLine u).length = 9 := by
  show (hexLine u).data.length = 9
  rw [hexLine_data, List.length_append, padTo8_length (natToHexDigits_length_le h8)]
  rfl

/-- Character 8 of a printed line is the newline. -/
theorem hexLine_newline {u : ℕ} (h8 : u < 16 ^ 8) : (hexLine u).data.getD 8 ' ' = '\n' := by
  have hlen : (padTo8 (natToHexDigits u)).length = 8 := padTo8_length (natToHexDigits_length_le h8)
  rw [hexLine_data]
  rw [List.getD_eq_getElem _ ' ' (by rw [List.length_append, hlen]; norm_num)]
  rw [List.getElem_append_right (by omega)]
  simp [hlen]

/-- The first 8 characters of a printed line are lowercase hex digits. -/
theorem hexLine_chars {u : ℕ} (h8 : u < 16 ^ 8) :
    ∀ c ∈ (hexLine u).data.take 8, c ∈ hexDigitChars := by
  intro c hc
  have hlen : (padTo8 (natToHexDigits u)).length = 8 := padTo8_length (natToHexDigits_length_le h8)
  rw [hexLine_data, List.take_left' hlen] at hc
  unfold padTo8 at hc
  rcases List.mem_append.mp hc with h | h
  · rcases (List.mem_replicate.mp h) with ⟨-, rfl⟩
    decide
  · unfold natToHexDigits at h
    split at h
    · simp at h
      subst h
      decide
    · exact mem_hexDigitsRev 16 u c (List.mem_reverse.mp h)

/-- The first character of a printed line is the leading hex digit. -/
theorem hexLine_head {u : ℕ} (h7 : 16 ^ 7 ≤ u) (h8 : u < 16 ^ 8) :
    (hexLine u).data.getD 0 ' ' = hexDigitChar (u / 16 ^ 7) := by
  have hpos : 0 < 16 ^ 7 := by norm_num
  have hne : u ≠ 0 := by omega
  have hpad : padTo8 (natToHexDigits u) = natToHexDigits u :=
    padTo8_of_length_eight (natToHexDigits_length_eight h7 h8)
  rw [hexLine_data, hpad]
  unfold natToHexDigits
  rw [if_neg hne]
  have hhead : (hexDigitsRev 16 u).reverse.head? = some (hexDigitChar (u / 16 ^ 7)) := by
    rw [List.head?_reverse]
    exact hexDigitsRev_getLast 16 7 u h7 h8 (by norm_num)
  cases hrev : (hexDigitsRev 16 u).reverse with
  | nil => rw [hrev] at hhead; simp at hhead
  | cons c t =>
    rw [hrev] at hhead
    simp at hhead
    rw [List.cons_append, List.getD_cons_zero, hhead]
    norm_num

/-! ## The byte copy is a bit-pattern reinterpretation -/

/-- `float_to_u32` returns exactly the stored bit pattern of its argument:
the `memcpy` byte copy is a same-width reinterpretation, not a numeric
conversion. -/
theorem float_to_u32_eq_bits (f : F32) : float_to_u32 f = f.bits := by
  have h1 : (cond f.sign 1 0 : ℕ) ≤ 1 := by cases f.sign <;> simp
  have h2 : f.biasedExp % 2 ^ 8 < 2 ^ 8 := Nat.mod_lt _ (by norm_num)
  have h3 : f.frac % 2 ^ 23 < 2 ^ 23 := Nat.mod_lt _ (by norm_num)
  have hb : f.bits < 2 ^ 32 := by unfold F32.bits; omega
  simp only [float_to_u32, F32.bytes, u32OfBytes]
  omega

/-- Encoding a 32-bit pattern as a stored float preserves the pattern. -/
theorem bits_ofBits {u : ℕ} (hu : u < 2 ^ 32) : (F32.ofBits u).bits = u := by
  by_cases h : u / 2 ^ 31 % 2 = 1
  · simp only [F32.ofBits, F32.bits, h, decide_True, cond_true]
    omega
  · simp only [F32.ofBits, F32.bits, decide_eq_false h, cond_false]
    omega

/-! ## Per-sample helper facts -/

/-- Every table word fits in 32 bits. -/
theorem expWord_lt (k : ℕ) : expWord k < 2 ^ 32 := by
  unfold expWord
  rw [expTable_eq]
  rcases Nat.lt_or_ge k expTableLit.length with h | h
  · have := getD_of_all wordChecks_all h 0
    simp only [wordCheck, Bool.and_eq_true, decide_eq_true_eq] at this
    omega
  · rw [List.getD_eq_default _ _ h]
    norm_num

/-- The numeric facts of `wordCheck`, positionally. -/
theorem expWord_range {k : ℕ} (hk : k < 1025) :
    0x39000000 ≤ expWord k ∧ expWord k ≤ 0x3f800000 ∧
      1 ≤ expWord k / 2 ^ 23 % 2 ^ 8 ∧ expWord k / 2 ^ 23 % 2 ^ 8 ≤ 254 ∧
      expWord k / 2 ^ 31 % 2 = 0 := by
  unfold expWord
  rw [expTable_eq]
  have := getD_of_all wordChecks_all (by rw [expTableLit_length]; exact hk) 0
  simp only [wordCheck, Bool.and_eq_true, decide_eq_true_eq] at this
  obtain ⟨⟨⟨⟨h1, h2⟩, h3⟩, h4⟩, h5⟩ := this
  exact ⟨h1, h2, h3, h4, h5⟩

/-- Every table word lies below `16 ^ 8`. -/
theorem expWord_lt_pow {k : ℕ} (hk : k < 1025) : expWord k < 16 ^ 8 := by
  have h := (expWord_range hk).2.1
  calc expWord k ≤ 0x3f800000 := h
    _ < 16 ^ 8 := by norm_num

/-- Every table word lies at or above `16 ^ 7`, so it prints 8 digits. -/
theorem expWord_ge_pow {k : ℕ} (hk : k < 1025) : 16 ^ 7 ≤ expWord k := by
  have h := (expWord_range hk).1
  calc (16 : ℕ) ^ 7 ≤ 0x39000000 := by norm_num
    _ ≤ expWord k := h

/-- The loop's `uint32_t u` is the word itself: the byte copy loses
nothing. -/
theorem uOfK_eq (k : ℕ) : uOfK k = expWord k := by
  unfold uOfK
  rw [float_to_u32_eq_bits, bits_ofBits (expWord_lt k)]

/-- The `k`-th output line is the loop body's rendering of the `k`-th
word. -/
theorem tableLines_getD {k : ℕ} (hk : k < 1025) :
    tableLines.getD k "" = hexLine (expWord k) := by
  unfold tableLines
  rw [expTable_eq, getD_map_at lineOfWord expTableLit (by rw [expTableLit_length]; exact hk) ""]
  unfold lineOfWord
  rw [float_to_u32_eq_bits, bits_ofBits]
  · unfold expWord
    rw [expTable_eq]
  · have : expTableLit.getD k 0 = expWord k := by unfold expWord; rw [expTable_eq]
    rw [this]
    exact expWord_lt k

/-- Filtering `std::cout` events out of file-stream writes gives nothing. -/
theorem filter_outWrite_map_fileWrite (l : List String) :
    (l.map Ev.fileWrite).filter Ev.isOutWrite = [] := by
  induction l with
  | nil => rfl
  | cons s t ih => simp [List.filter_cons, Ev.isOutWrite, ih]

/-! ## The claims -/

/-- C1: for every `k` in `[0, 1024]`, the `k`-th output line, parsed as an
unsigned 32-bit integer from its 8 hex digits, is exactly the binary32 bit
pattern of `float (exp (-k * (1/128)))` — `exp` at double precision,
narrowed to single precision under round-to-nearest-even. -/
theorem spec_c1_lines_decode :
    ∀ k < 1025, parseHexU32 (tableLines.getD k "") = expWord k := by
  intro k hk
  rw [tableLines_getD hk]
  exact parse_hexLine (expWord_lt_pow hk)

theorem spec_c1_witness :
    512 < 1025 ∧ parseHexU32 (tableLines.getD 512 "") = expWord 512 :=
  ⟨by norm_num, spec_c1_lines_decode 512 (by norm_num)⟩

/-- C2: the output consists of exactly 1025 lines; each is exactly 8
lowercase hexadecimal digit characters followed by the newline; and line
`k` is the rendering of the word of sample index `k`, in ascending order
of `k`. -/
theorem spec_c2_file_shape :
    tableLines.length = 1025 ∧
    ∀ k < 1025,
      (tableLines.getD k "").length = 9 ∧
      (∀ c ∈ (tableLines.getD k "").data.take 8, c ∈ hexDigitChars) ∧
      (tableLines.getD k "").data.getD 8 ' ' = '\n' ∧
      tableLines.getD k "" = hexLine (uOfK k) := by
  constructor
  · unfold tableLines
    rw [List.length_map, expTable_length]
  · intro k hk
    have h8 := expWord_lt_pow hk
    rw [tableLines_getD hk]
    exact ⟨hexLine_length h8, hexLine_chars h8, hexLine_newline h8, by rw [uOfK_eq]⟩

theorem spec_c2_witness :
    tableLines.length = 1025 ∧ 7 < 1025 ∧ (tableLines.getD 7 "").length = 9 :=
  ⟨spec_c2_file_shape.1, by norm_num, (spec_c2_file_shape.2 7 (by norm_num)).1⟩

/-- C3: line 0 (the entry for `k = 0`, `x = 0`, `exp 0 = 1`) carries the
word `0x3f800000`, the IEEE-754 single-precision pattern of `1.0f`, and is
printed as the string `"3f800000"` (plus the newline). -/
theorem spec_c3_line0 :
    expWord 0 = 0x3f800000 ∧ tableLines.getD 0 "" = "3f800000\n" := by
  have h0 : expWord 0 = 0x3f800000 := by
    unfold expWord
    rw [expTable_eq]
    decide
  refine ⟨h0, ?_⟩
  rw [tableLines_getD (by norm_num), h0]
  decide

/-- C4: the generator is deterministic and idempotent: a successful run
produces the same file content whatever the previous content was (the open
truncates, fully overwriting an existing file), and running twice yields
byte-identical content both times. -/
theorem spec_c4_overwrite_idempotent :
    ∀ prev prev' : Option String,
      runFileContent true prev = runFileContent true prev' ∧
      runFileContent true (runFileContent true prev) = runFileContent true prev ∧
      runFileContent true prev = some (String.join tableLines) := by
  intro prev prev'
  exact ⟨rfl, rfl, rfl⟩

theorem spec_c4_witness :
    runFileContent true none = runFileContent true (some "previous") :=
  (spec_c4_overwrite_idempotent none (some "previous")).1

/-- C5: when the output file cannot be opened, the run emits the diagnostic
on the error stream, writes no table lines, prints nothing to standard
output, and exits with status 1; a successful run exits with status 0. -/
theorem spec_c5_open_failure :
    (runProg false).2 = 1 ∧
    (runProg false).1.filter Ev.isFileWrite = [] ∧
    (runProg false).1.filter Ev.isOutWrite = [] ∧
    Ev.errWrite openFailMsg ∈ (runProg false).1 ∧
    (runProg true).2 = 0 := by
  refine ⟨rfl, rfl, rfl, ?_, rfl⟩
  show Ev.errWrite openFailMsg ∈ [Ev.errWrite openFailMsg]
  exact List.mem_singleton_self _

/-- C6: a successful run prints exactly one line to standard output; it
names the output file and the count 1025; and it is emitted only after all
file writes and after the close of the stream. -/
theorem spec_c6_success_message :
    (runProg true).1.filter Ev.isOutWrite = [Ev.outWrite successMsg] ∧
    listHas successMsg.data outFileName.data = true ∧
    listHas successMsg.data ['1', '0', '2', '5'] = true ∧
    ∃ pre, (runProg true).1 = pre ++ [Ev.fileClose, Ev.outWrite successMsg] ∧
      ∀ e ∈ pre, Ev.isFileWrite e = true := by
  refine ⟨?_, by decide, by decide, tableLines.map Ev.fileWrite, rfl, ?_⟩
  · show ((tableLines.map Ev.fileWrite) ++
      [Ev.fileClose, Ev.outWrite successMsg]).filter Ev.isOutWrite = _
    rw [List.filter_append, filter_outWrite_map_fileWrite]
    rfl
  · intro e he
    obtain ⟨s, -, rfl⟩ := List.mem_map.mp he
    rfl

/-- C7: the numeric path has no failure mode on the fixed domain: every
input `x = -k * (1/128)` lies in `[-8, 0]`, every interval bracket
determined its rounding (`isSome`), and every narrowed value is a strictly
positive normal binary32 number (biased exponent in `[1, 254]`, sign bit
clear — no zero, subnormal, infinity or NaN). -/
theorem spec_c7_no_numeric_failure :
    ∀ k < 1025,
      ((-8 : ℚ) ≤ xOfK k ∧ xOfK k ≤ 0) ∧
      (expTableOpt.getD k none).isSome = true ∧
      (1 ≤ expWord k / 2 ^ 23 % 2 ^ 8 ∧ expWord k / 2 ^ 23 % 2 ^ 8 ≤ 254) ∧
      expWord k / 2 ^ 31 % 2 = 0 ∧
      0 < expWord k := by
  intro k hk
  obtain ⟨h1, -, h3, h4, h5⟩ := expWord_range hk
  refine ⟨⟨?_, ?_⟩, ?_, ⟨h3, h4⟩, h5, by omega⟩
  · unfold xOfK STEP
    have hkq : (k : ℚ) ≤ 1024 := by exact_mod_cast (by omega : k ≤ 1024)
    linarith
  · unfold xOfK STEP
    have hkq : (0 : ℚ) ≤ (k : ℚ) := Nat.cast_nonneg k
    linarith
  · exact getD_of_all expTableOpt_all_isSome (by rw [expTableOpt_length]; exact hk) none

theorem spec_c7_witness :
    1024 < 1025 ∧ (expTableOpt.getD 1024 none).isSome = true :=
  ⟨by norm_num, (spec_c7_no_numeric_failure 1024 (by norm_num)).2.1⟩

/-- C8: `float_to_u32` is an exact same-width bit-pattern
reinterpretation: for every stored float, the returned integer is exactly
the float's IEEE-754 bit pattern — no numeric conversion, rounding or
truncation. -/
theorem spec_c8_bit_reinterpretation : ∀ f : F32, float_to_u32 f = f.bits :=
  float_to_u32_eq_bits

theorem spec_c8_witness :
    float_to_u32 ⟨false, 127, 0⟩ = F32.bits ⟨false, 127, 0⟩ :=
  spec_c8_bit_reinterpretation ⟨false, 127, 0⟩

/-- C9: the table is strictly decreasing: for every `k < 1024`, the word
on line `k + 1` is strictly smaller (as an unsigned integer, equivalently
as a positive binary32 value) than the word on line `k`. -/
theorem spec_c9_strictly_decreasing :
    ∀ k < 1024, expWord (k + 1) < expWord k := by
  intro k hk
  unfold expWord
  rw [expTable_eq]
  exact getD_lt_of_zipTail zipChecks_all (by rw [expTableLit_length]; omega)

theorem spec_c9_witness : 0 < 1024 ∧ expWord 1 < expWord 0 :=
  ⟨by norm_num, spec_c9_strictly_decreasing 0 (by norm_num)⟩

/-- C10: every encoded word lies in `[0x39000000, 0x3f800000]`; in
particular the sign bit is clear, the leading printed character is always
`'3'`, and the unpadded numeral already has 8 digits, so the zero-padding
of the 8-character field is never exercised. -/
theorem spec_c10_word_range :
    ∀ k < 1025,
      (0x39000000 ≤ expWord k ∧ expWord k ≤ 0x3f800000) ∧
      expWord k / 2 ^ 31 % 2 = 0 ∧
      (tableLines.getD k "").data.getD 0 ' ' = '3' ∧
      (natToHexDigits (uOfK k)).length = 8 := by
  intro k hk
  obtain ⟨h1, h2, -, -, h5⟩ := expWord_range hk
  have h8 := expWord_lt_pow hk
  have h7 := expWord_ge_pow hk
  refine ⟨⟨h1, h2⟩, h5, ?_, ?_⟩
  · rw [tableLines_getD hk, hexLine_head h7 h8]
    have hdiv : expWord k / 16 ^ 7 = 3 := by
      have hc : (16 : ℕ) ^ 7 = 0x10000000 := by norm_num
      omega
    rw [hdiv]
    decide
  · rw [uOfK_eq]
    exact natToHexDigits_length_eight h7 h8

theorem spec_c10_witness :
    1024 < 1025 ∧ 0x39000000 ≤ expWord 1024 ∧ expWord 1024 ≤ 0x3f800000 := by
  have h := (spec_c10_word_range 1024 (by norm_num)).1
  exact ⟨by norm_num, h.1, h.2⟩
